import Mathlib

/-!
# Verification of the gdrive Google Drive client (gdrive.go)

Shallow embedding of the algorithmic core of `gdrive.go`:

* the folder-map build and the `buildPath` closures of `ListFiles` and
  `ListFilesInFolder` (cycle-guarded, depth-bounded upward traversal);
* the paginated file enumeration with its size/mime filter;
* the transfer operations (`StreamFile`, `PartialDownloadFile`,
  `ExportWorkspaceDocument`, `DownloadRevision`, `PartialDownloadRevision`,
  `UploadFileFromReader`, `IsWorkspaceDocument`) over an abstract remote
  backend (`DriveNet`), where an HTTP response is modelled by its status code
  together with the outcome of copying its body into the caller's sink.

Go `int64` values are modelled as `Int`; Go `(T, error)` returns are modelled
as `T × Option String` where `none` means a nil error; `fmt.Errorf("ctx: %w", e)`
wrapping is modelled as string concatenation with the context prefix.
-/

namespace GDrive

/-- A remote Drive object, restricted to the fields requested by the listing
calls in gdrive.go (`files(id, name, mimeType, size, webViewLink, parents)`). -/
structure DriveFile where
  id : String
  name : String
  mimeType : String
  size : Int
  webViewLink : String
  parents : List String
deriving DecidableEq

/-- The output record of `ListFiles` (struct `FileInfo` in gdrive.go). -/
structure FileInfo where
  id : String
  name : String
  mimeType : String
  size : Int
  webViewLink : String
  parents : List String
  folderPath : String
deriving DecidableEq

/-- Lookup in `folderMap` (gdrive.go lines 228-230 and 350-353).  The Go code
assigns `folderMap[folder.Id] = folder.Name` while ranging over the folders
response, so for duplicate ids the last entry wins: the lookup returns the
name of the last matching entry. -/
def folderName (folders : List DriveFile) (id : String) : Option String :=
  ((folders.filter (fun f => f.id == id)).getLast?).map (fun f => f.name)

/-- The parent step of the `buildPath` closure in `ListFiles` (gdrive.go lines
247-253): scan the folders response for the first entry whose id matches and
whose parent list is nonempty, and move to its first parent.  `none` means no
such entry exists, in which case the Go loop leaves `currentID` unchanged. -/
def stepL (folders : List DriveFile) (id : String) : Option String :=
  match folders.find? (fun f => f.id == id && !f.parents.isEmpty) with
  | some f => f.parents.head?
  | none => none

/-- Lookup in `folderParentMap` (gdrive.go lines 350-353); last write wins, as
for `folderName`. -/
def folderParents (folders : List DriveFile) (id : String) : Option (List String) :=
  ((folders.filter (fun f => f.id == id)).getLast?).map (fun f => f.parents)

/-- The parent step of the `buildPath` closure in `ListFilesInFolder`
(gdrive.go lines 369-373): move to the first parent recorded in
`folderParentMap`; `none` (the Go `break`) when the id is absent from the map
or has an empty parent list. -/
def stepF (folders : List DriveFile) (id : String) : Option String :=
  match folderParents folders id with
  | some ps => ps.head?
  | none => none

/-- The bounded upward traversal common to both `buildPath` closures
(gdrive.go lines 242-257 and 365-377): at most `fuel` (= 10) iterations, and
the loop stops on the empty id, on a revisited id, or on an id with no name in
the folder map; otherwise the folder's name is prepended to the accumulated
segments and the traversal advances.  When `stepOf` yields no parent the
current id is kept, exactly as in `ListFiles`' closure where the inner scan
leaves `currentID` unchanged; the next iteration then stops at the visited
check. -/
def walk (nameOf stepOf : String → Option String) :
    Nat → String → List String → List String → List String
  | 0, _, _, parts => parts
  | fuel + 1, cur, vis, parts =>
    if cur = "" ∨ cur ∈ vis then parts
    else
      match nameOf cur with
      | none => parts
      | some nm =>
        match stepOf cur with
        | some p => walk nameOf stepOf fuel p (cur :: vis) (nm :: parts)
        | none => walk nameOf stepOf fuel cur (cur :: vis) (nm :: parts)

/-- `pathParts` accumulation of the `buildPath` closure in `ListFiles`
(gdrive.go lines 238-257). -/
def buildPathAuxL (folders : List DriveFile) :
    Nat → String → List String → List String → List String :=
  walk (folderName folders) (stepL folders)

/-- `pathParts` accumulation of the `buildPath` closure in `ListFilesInFolder`
(gdrive.go lines 361-377).  It differs from `ListFiles`' closure only in the
data source for the parent step and in breaking out of the loop immediately
when no parent is recorded (with the current folder's name already added). -/
def buildPathAuxF (folders : List DriveFile) :
    Nat → String → List String → List String → List String
  | 0, _, _, parts => parts
  | fuel + 1, cur, vis, parts =>
    if cur = "" ∨ cur ∈ vis then parts
    else
      match folderName folders cur with
      | none => parts
      | some nm =>
        match stepF folders cur with
        | some p => buildPathAuxF folders fuel p (cur :: vis) (nm :: parts)
        | none => nm :: parts

/-- The resolved path segments produced by `ListFiles`' `buildPath` for a
parent-identifier list: empty for an empty list, otherwise the `pathParts`
accumulated starting from the first parent id with the depth bound 10. -/
def resolvedSegmentsL (folders : List DriveFile) (parentIDs : List String) : List String :=
  match parentIDs with
  | [] => []
  | pid :: _ => buildPathAuxL folders 10 pid [] []

/-- The resolved path segments produced by `ListFilesInFolder`'s `buildPath`. -/
def resolvedSegmentsF (folders : List DriveFile) (parentIDs : List String) : List String :=
  match parentIDs with
  | [] => []
  | pid :: _ => buildPathAuxF folders 10 pid [] []

/-- `buildPath` of `ListFiles` (gdrive.go lines 233-263). -/
def buildPathL (folders : List DriveFile) (parentIDs : List String) : String :=
  match parentIDs with
  | [] => "My Drive"
  | pid :: _ =>
    let parts := buildPathAuxL folders 10 pid [] []
    if parts = [] then "My Drive" else "My Drive/" ++ String.intercalate "/" parts

/-- `buildPath` of `ListFilesInFolder` (gdrive.go lines 356-383). -/
def buildPathF (folders : List DriveFile) (parentIDs : List String) : String :=
  match parentIDs with
  | [] => "My Drive"
  | pid :: _ =>
    let parts := buildPathAuxF folders 10 pid [] []
    if parts = [] then "My Drive" else "My Drive/" ++ String.intercalate "/" parts

/-- The folder listing performed before pagination (gdrive.go lines 217-226
and 339-348): a single `Files.List` request with `PageSize(1000)` and no
page-token loop, so of the whole container corpus only the first page — at
most 1000 entries — is ever received. -/
def fetchFolders (allFolders : List DriveFile) : List DriveFile :=
  allFolders.take 1000

/-- `ListFiles` (gdrive.go lines 209-305) over an abstract backend: the
container corpus `allFolders` feeds the single folder-map request, and `pages`
are the successive pages of the paginated files listing.  Each page's items
are filtered — zero-size items and folder-mime items are skipped — and the
survivors are converted to `FileInfo` records with the folder path resolved
against the snapshot folder map. -/
def ListFilesModel (allFolders : List DriveFile) (pages : List (List DriveFile)) :
    List FileInfo :=
  let foldersResp := fetchFolders allFolders
  (pages.map (fun page =>
    page.filterMap (fun item =>
      if item.size = 0 ∨ item.mimeType = "application/vnd.google-apps.folder" then none
      else some { id := item.id, name := item.name, mimeType := item.mimeType,
                  size := item.size, webViewLink := item.webViewLink,
                  parents := item.parents,
                  folderPath := buildPathL foldersResp item.parents })) ).flatten

/-- Byte-range options (struct `PartialDownloadOptions` in gdrive.go); the Go
`int64` fields are modelled as `Int`. -/
structure PartialDownloadOptions where
  StartByte : Int
  EndByte : Int
deriving DecidableEq

/-- An HTTP response as the transfer code observes it: the status code, and
the outcome of `io.Copy(w, resp.Body)` — the byte count written to the sink
together with `none` for a clean copy or `some e` for a copy error message. -/
structure HttpResponse where
  statusCode : Nat
  copyResult : Int × Option String
deriving DecidableEq

/-- The abstract remote backend consumed by the transfer operations: one field
per distinct remote request shape appearing in gdrive.go.  `Except.error e`
models a failed `Download()`/`Do()` call, `Except.ok` a received response. -/
structure DriveNet where
  /-- `Files.Get(fileID).Download()` (gdrive.go line 453). -/
  filesGet : String → Except String HttpResponse
  /-- `Revisions.Get(fileID, revisionID).Download()` with no Range header
  (gdrive.go lines 1059-1061). -/
  revisionsGet : String → String → Except String HttpResponse
  /-- `Revisions.Get(fileID, revisionID)` with a Range header, then
  `Download()` (gdrive.go lines 827-831 and 1112-1116); the third argument is
  the Range header value. -/
  revisionsGetRange : String → String → String → Except String HttpResponse
  /-- `Files.Export(fileID, format).Download()` (gdrive.go line 933). -/
  filesExport : String → String → Except String HttpResponse
  /-- `Files.Create(meta).Media(reader).Do()` (gdrive.go lines 633-637),
  taking the metadata name, mime type and parents and returning the new id. -/
  filesCreate : String → String → List String → Except String String
  /-- `Files.Get(fileID).Fields("mimeType").Do()` (gdrive.go lines 1164-1167),
  returning the file's mime type. -/
  getMimeType : String → Except String String

/-- The Range header value `fmt.Sprintf("bytes=%d-%d", opts.StartByte,
opts.EndByte)` (gdrive.go lines 828 and 1113). -/
def rangeHeader (opts : PartialDownloadOptions) : String :=
  "bytes=" ++ toString opts.StartByte ++ "-" ++ toString opts.EndByte

/-- `StreamFile` (gdrive.go lines 448-469): full download of a file, accepting
only status 200, then copying the body to the sink. -/
def StreamFile (net : DriveNet) (fileID : String) : Int × Option String :=
  if fileID = "" then (0, some "file ID cannot be empty")
  else
    match net.filesGet fileID with
    | Except.error e => (0, some ("unable to download file: " ++ e))
    | Except.ok resp =>
      if resp.statusCode ≠ 200 then
        (0, some ("unexpected status code: " ++ toString resp.statusCode))
      else
        match resp.copyResult with
        | (written, some e) => (written, some ("unable to stream file content: " ++ e))
        | (written, none) => (written, none)

/-- `PartialDownloadFile` (gdrive.go lines 816-847): validates the byte range,
then requests `Revisions.Get(fileID, fileID)` — the file's own id doubles as
the revision id — with a Range header, accepts status 206 or 200, and copies
the body to the sink. -/
def PartialDownloadFile (net : DriveNet) (fileID : String)
    (opts : PartialDownloadOptions) : Int × Option String :=
  if fileID = "" then (0, some "file ID cannot be empty")
  else if opts.StartByte < 0 ∨ opts.EndByte < 0 then
    (0, some "byte positions cannot be negative")
  else if opts.StartByte > opts.EndByte then
    (0, some "start byte must be less than or equal to end byte")
  else
    match net.revisionsGetRange fileID fileID (rangeHeader opts) with
    | Except.error e => (0, some ("unable to download revision: " ++ e))
    | Except.ok resp =>
      if resp.statusCode ≠ 206 ∧ resp.statusCode ≠ 200 then
        (0, some ("unexpected status code: " ++ toString resp.statusCode))
      else
        match resp.copyResult with
        | (written, some e) => (written, some ("unable to write revision content: " ++ e))
        | (written, none) => (written, none)

/-- `PartialDownloadRevision` (gdrive.go lines 1098-1132): like
`PartialDownloadFile` but with an explicit revision id, validated nonempty
after the file id. -/
def PartialDownloadRevision (net : DriveNet) (fileID revisionID : String)
    (opts : PartialDownloadOptions) : Int × Option String :=
  if fileID = "" then (0, some "file ID cannot be empty")
  else if revisionID = "" then (0, some "revision ID cannot be empty")
  else if opts.StartByte < 0 ∨ opts.EndByte < 0 then
    (0, some "byte positions cannot be negative")
  else if opts.StartByte > opts.EndByte then
    (0, some "start byte must be less than or equal to end byte")
  else
    match net.revisionsGetRange fileID revisionID (rangeHeader opts) with
    | Except.error e => (0, some ("unable to download revision: " ++ e))
    | Except.ok resp =>
      if resp.statusCode ≠ 206 ∧ resp.statusCode ≠ 200 then
        (0, some ("unexpected status code: " ++ toString resp.statusCode))
      else
        match resp.copyResult with
        | (written, some e) => (written, some ("unable to write revision content: " ++ e))
        | (written, none) => (written, none)

/-- `DownloadRevision` (gdrive.go lines 1051-1077): full download of a file
revision, accepting only status 200. -/
def DownloadRevision (net : DriveNet) (fileID revisionID : String) : Int × Option String :=
  if fileID = "" then (0, some "file ID cannot be empty")
  else if revisionID = "" then (0, some "revision ID cannot be empty")
  else
    match net.revisionsGet fileID revisionID with
    | Except.error e => (0, some ("unable to download revision: " ++ e))
    | Except.ok resp =>
      if resp.statusCode ≠ 200 then
        (0, some ("unexpected status code: " ++ toString resp.statusCode))
      else
        match resp.copyResult with
        | (written, some e) => (written, some ("unable to write revision content: " ++ e))
        | (written, none) => (written, none)

/-- `ExportWorkspaceDocument` (gdrive.go lines 925-948): server-side format
conversion of a workspace document, accepting only status 200. -/
def ExportWorkspaceDocument (net : DriveNet) (fileID format : String) : Int × Option String :=
  if fileID = "" then (0, some "file ID cannot be empty")
  else if format = "" then (0, some "export format cannot be empty")
  else
    match net.filesExport fileID format with
    | Except.error e => (0, some ("unable to export document: " ++ e))
    | Except.ok resp =>
      if resp.statusCode ≠ 200 then
        (0, some ("unexpected status code: " ++ toString resp.statusCode))
      else
        match resp.copyResult with
        | (written, some e) => (written, some ("unable to write exported content: " ++ e))
        | (written, none) => (written, none)

/-- `UploadFileFromReader` (gdrive.go lines 613-644): the source reader is
modelled as `Option Unit` (`none` = a nil reader).  An empty mime type is
replaced by "application/octet-stream"; a nonempty parent folder id becomes
the one-element parents list of the created file. -/
def UploadFileFromReader (net : DriveNet) (reader : Option Unit)
    (fileName mimeType parentFolderID : String) : String × Option String :=
  if reader.isNone then ("", some "reader cannot be nil")
  else if fileName = "" then ("", some "file name cannot be empty")
  else
    let mt := if mimeType = "" then "application/octet-stream" else mimeType
    let parents := if parentFolderID ≠ "" then [parentFolderID] else []
    match net.filesCreate fileName mt parents with
    | Except.error e => ("", some ("unable to upload file: " ++ e))
    | Except.ok newID => (newID, none)

/-- `IsWorkspaceDocument` (gdrive.go lines 1159-1181): fetch the file's mime
type; a workspace document is a mime type of byte length greater than 28 whose
first 28 bytes are "application/vnd.google-apps.", with the folder mime type
explicitly excluded.  (Mime types are ASCII, so Go's byte-based `len` and
`[:28]` coincide with `String.length` and `String.take 28`.) -/
def IsWorkspaceDocument (net : DriveNet) (fileID : String) : Bool × Option String :=
  if fileID = "" then (false, some "file ID cannot be empty")
  else
    match net.getMimeType fileID with
    | Except.error e => (false, some ("unable to get file metadata: " ++ e))
    | Except.ok mt =>
      let isWorkspace : Bool :=
        decide (28 < mt.length) && decide (mt.take 28 = "application/vnd.google-apps.")
      if mt = "application/vnd.google-apps.folder" then (false, none)
      else (isWorkspace, none)

/-! ### Concrete fixtures used by counterexamples and witnesses -/

/-- A two-folder parent cycle a → b → a in the folder index. -/
def cycFolders : List DriveFile :=
  [{ id := "a", name := "A", mimeType := "application/vnd.google-apps.folder",
     size := 0, webViewLink := "", parents := ["b"] },
   { id := "b", name := "B", mimeType := "application/vnd.google-apps.folder",
     size := 0, webViewLink := "", parents := ["a"] }]

/-- The two nodes of the cycle in `cycFolders`, indexed by `Fin 2`. -/
def cycNode (i : Fin 2) : String := if i.val = 0 then "a" else "b"

/-- Identifier of the i-th folder of a deep parent chain. -/
def chainID (i : Nat) : String := "d" ++ toString i

/-- Display name of the i-th folder of a deep parent chain. -/
def chainNm (i : Nat) : String := "N" ++ toString i

/-- An acyclic parent chain more than 10 containers deep: folder i has parent
folder i+1. -/
def deepFolders : List DriveFile :=
  (List.range 10).map (fun i =>
    { id := chainID i, name := chainNm i,
      mimeType := "application/vnd.google-apps.folder",
      size := 0, webViewLink := "", parents := [chainID (i + 1)] })

/-- Container A of the C4 scenario (no parent). -/
def folderA : DriveFile :=
  { id := "idA", name := "A", mimeType := "application/vnd.google-apps.folder",
    size := 0, webViewLink := "", parents := [] }

/-- Container B of the C4 scenario (no parent). -/
def folderB : DriveFile :=
  { id := "idB", name := "B", mimeType := "application/vnd.google-apps.folder",
    size := 0, webViewLink := "", parents := [] }

/-- File F1 of the C4 scenario: parent A, size 10. -/
def fileF1 : DriveFile :=
  { id := "f1", name := "F1", mimeType := "text/plain", size := 10,
    webViewLink := "link1", parents := ["idA"] }

/-- File F2 of the C4 scenario: no parent, size 0. -/
def fileF2 : DriveFile :=
  { id := "f2", name := "F2", mimeType := "text/plain", size := 0,
    webViewLink := "link2", parents := [] }

/-- File F3 of the C4 scenario: parent A, container mime type. -/
def fileF3 : DriveFile :=
  { id := "f3", name := "F3", mimeType := "application/vnd.google-apps.folder",
    size := 7, webViewLink := "link3", parents := ["idA"] }

/-- The single record `ListFiles` produces in the C4 scenario. -/
def recordF1 : FileInfo :=
  { id := "f1", name := "F1", mimeType := "text/plain", size := 10,
    webViewLink := "link1", parents := ["idA"], folderPath := "My Drive/A" }

/-- Distinct container identifiers: the i-th id is the string of i+1 copies of
the character a, so ids of different indices have different lengths. -/
def idOfIndex (i : Nat) : String := String.mk (List.replicate (i + 1) 'a')

/-- A corpus of n containers with pairwise distinct identifiers. -/
def manyFolders (n : Nat) : List DriveFile :=
  (List.range n).map (fun i =>
    { id := idOfIndex i, name := "folder",
      mimeType := "application/vnd.google-apps.folder",
      size := 0, webViewLink := "", parents := [] })

/-- A backend whose every download-style request yields the given response. -/
def testNet (resp : HttpResponse) : DriveNet :=
  { filesGet := fun _ => Except.ok resp
    revisionsGet := fun _ _ => Except.ok resp
    revisionsGetRange := fun _ _ _ => Except.ok resp
    filesExport := fun _ _ => Except.ok resp
    filesCreate := fun _ _ _ => Except.ok "newid"
    getMimeType := fun _ => Except.ok "application/vnd.google-apps.document" }

/-- A backend whose every request fails at the transport level. -/
def downNet : DriveNet :=
  { filesGet := fun _ => Except.error "network down"
    revisionsGet := fun _ _ => Except.error "network down"
    revisionsGetRange := fun _ _ _ => Except.error "network down"
    filesExport := fun _ _ => Except.error "network down"
    filesCreate := fun _ _ _ => Except.error "network down"
    getMimeType := fun _ => Except.error "network down" }

/-- A response with status 200 and a clean 5-byte copy. -/
def resp200 : HttpResponse := { statusCode := 200, copyResult := (5, none) }

/-- A response with status 206 and a clean 4-byte copy. -/
def resp206 : HttpResponse := { statusCode := 206, copyResult := (4, none) }

/-- A response with status 200 whose body copy fails after 3 bytes. -/
def respCopyFail : HttpResponse :=
  { statusCode := 200, copyResult := (3, some "copy interrupted") }

/-! ### Helper lemmas about the traversal -/

theorem walk_visited (nameOf stepOf : String → Option String)
    (fuel : Nat) (cur : String) (vis parts : List String) (h : cur ∈ vis) :
    walk nameOf stepOf fuel cur vis parts = parts := by
  cases fuel with
  | zero => rfl
  | succ fuel => simp [walk, h]

theorem buildPathAuxF_eq_walk (folders : List DriveFile) :
    ∀ (fuel : Nat) (cur : String) (vis parts : List String),
      buildPathAuxF folders fuel cur vis parts
        = walk (folderName folders) (stepF folders) fuel cur vis parts := by
  intro fuel
  induction fuel with
  | zero => intro cur vis parts; rfl
  | succ fuel ih =>
    intro cur vis parts
    simp only [buildPathAuxF, walk]
    by_cases h : cur = "" ∨ cur ∈ vis
    · simp [h]
    · rw [if_neg h, if_neg h]
      cases hname : folderName folders cur with
      | none => rfl
      | some nm =>
        cases hstep : stepF folders cur with
        | none =>
          show nm :: parts
            = walk (folderName folders) (stepF folders) fuel cur (cur :: vis) (nm :: parts)
          exact (walk_visited (folderName folders) (stepF folders) fuel cur (cur :: vis)
            (nm :: parts) (List.mem_cons_self cur vis)).symm
        | some p => exact ih p (cur :: vis) (nm :: parts)

/-- If every parent step from inside `C` stays inside `C`, a traversal started
inside `C` adds at most as many segments as there are identifiers of `C` not
yet visited: each iteration consumes one fresh element of `C`. -/
theorem walk_length_le_card (nameOf stepOf : String → Option String)
    (C : Finset String)
    (hstep : ∀ x ∈ C, ∀ p, stepOf x = some p → p ∈ C) :
    ∀ (fuel : Nat) (cur : String) (vis parts : List String), cur ∈ C →
      (walk nameOf stepOf fuel cur vis parts).length
        ≤ parts.length + (C \ vis.toFinset).card := by
  intro fuel
  induction fuel with
  | zero => intro cur vis parts _; simp [walk]
  | succ fuel ih =>
    intro cur vis parts hcur
    simp only [walk]
    by_cases hv : cur = "" ∨ cur ∈ vis
    · rw [if_pos hv]; omega
    · rw [if_neg hv]
      push_neg at hv
      obtain ⟨-, hnvis⟩ := hv
      cases hname : nameOf cur with
      | none =>
        show parts.length ≤ parts.length + (C \ vis.toFinset).card
        omega
      | some nm =>
        have hsub : (C \ (cur :: vis).toFinset) ⊆ (C \ vis.toFinset) :=
          Finset.sdiff_subset_sdiff (Finset.Subset.refl C)
            (by rw [List.toFinset_cons]; exact Finset.subset_insert _ _)
        have hmem : cur ∈ C \ vis.toFinset :=
          Finset.mem_sdiff.mpr ⟨hcur, by simpa using hnvis⟩
        have hnotmem : cur ∉ C \ (cur :: vis).toFinset := by simp
        have hlt : (C \ (cur :: vis).toFinset).card < (C \ vis.toFinset).card :=
          Finset.card_lt_card
            ((Finset.ssubset_iff_of_subset hsub).mpr ⟨cur, hmem, hnotmem⟩)
        have key : ∀ cur', cur' ∈ C →
            (walk nameOf stepOf fuel cur' (cur :: vis) (nm :: parts)).length
              ≤ parts.length + (C \ vis.toFinset).card := by
          intro cur' hc'
          have h1 := ih cur' (cur :: vis) (nm :: parts) hc'
          simp only [List.length_cons] at h1
          omega
        cases hstepc : stepOf cur with
        | some p => exact key p (hstep cur hcur p hstepc)
        | none => exact key cur hcur

theorem range_reverse_map_succ {α : Type} (g : Nat → α) (n : Nat) :
    (List.range (n + 1)).reverse.map g
      = ((List.range n).reverse.map (fun i => g (i + 1))) ++ [g 0] := by
  rw [List.range_succ_eq_map, List.reverse_cons, List.map_append, List.map_reverse,
    List.map_map, ← List.map_reverse]
  rfl

/-- Unrolling the traversal along a fresh chain: when from index `j` on, every
identifier resolves and steps to the next one, none of the first `fuel` of
them was visited before, and they are pairwise distinct and nonempty, then
exactly `fuel` names are accumulated, outermost ancestor first. -/
theorem walk_chain (nameOf stepOf : String → Option String) (c nm : Nat → String) :
    ∀ (fuel j : Nat) (vis parts : List String),
    (∀ i, i < fuel → nameOf (c (j + i)) = some (nm (j + i))) →
    (∀ i, i < fuel → stepOf (c (j + i)) = some (c (j + i + 1))) →
    (∀ i, i < fuel → c (j + i) ∉ vis) →
    (∀ i₁ i₂, i₁ < fuel → i₂ < fuel → c (j + i₁) = c (j + i₂) → i₁ = i₂) →
    (∀ i, i < fuel → c (j + i) ≠ "") →
    walk nameOf stepOf fuel (c j) vis parts
      = ((List.range fuel).reverse.map (fun i => nm (j + i))) ++ parts := by
  intro fuel
  induction fuel with
  | zero => intro j vis parts _ _ _ _ _; simp [walk]
  | succ fuel ih =>
    intro j vis parts hname hstep hvis hinj hne
    have h0 : (0 : Nat) < fuel + 1 := Nat.succ_pos fuel
    have hname0 : nameOf (c j) = some (nm j) := by simpa using hname 0 h0
    have hstep0 : stepOf (c j) = some (c (j + 1)) := by simpa using hstep 0 h0
    have hvis0 : c j ∉ vis := by simpa using hvis 0 h0
    have hne0 : c j ≠ "" := by simpa using hne 0 h0
    have h1' : ∀ i, i < fuel → nameOf (c (j + 1 + i)) = some (nm (j + 1 + i)) := by
      intro i hi
      have h := hname (i + 1) (by omega)
      have e : j + (i + 1) = j + 1 + i := by omega
      rwa [e] at h
    have h2' : ∀ i, i < fuel → stepOf (c (j + 1 + i)) = some (c (j + 1 + i + 1)) := by
      intro i hi
      have h := hstep (i + 1) (by omega)
      have e : j + (i + 1) = j + 1 + i := by omega
      rwa [e] at h
    have h3' : ∀ i, i < fuel → c (j + 1 + i) ∉ (c j :: vis) := by
      intro i hi
      have hv := hvis (i + 1) (by omega)
      have e : j + (i + 1) = j + 1 + i := by omega
      rw [e] at hv
      intro hmem
      rcases List.mem_cons.mp hmem with h | h
      · have h' : c (j + (i + 1)) = c (j + 0) := by
          rw [Nat.add_zero, e]; exact h
        have := hinj (i + 1) 0 (by omega) (by omega) h'
        omega
      · exact hv h
    have h4' : ∀ i₁ i₂, i₁ < fuel → i₂ < fuel →
        c (j + 1 + i₁) = c (j + 1 + i₂) → i₁ = i₂ := by
      intro i₁ i₂ hi₁ hi₂ hcc
      have e₁ : j + 1 + i₁ = j + (i₁ + 1) := by omega
      have e₂ : j + 1 + i₂ = j + (i₂ + 1) := by omega
      rw [e₁, e₂] at hcc
      have := hinj (i₁ + 1) (i₂ + 1) (by omega) (by omega) hcc
      omega
    have h5' : ∀ i, i < fuel → c (j + 1 + i) ≠ "" := by
      intro i hi
      have h := hne (i + 1) (by omega)
      have e : j + (i + 1) = j + 1 + i := by omega
      rwa [e] at h
    simp only [walk]
    rw [if_neg (by push_neg; exact ⟨hne0, hvis0⟩)]
    simp only [hname0, hstep0]
    rw [ih (j + 1) (c j :: vis) (nm j :: parts) h1' h2' h3' h4' h5']
    rw [range_reverse_map_succ (fun i => nm (j + i)) fuel, List.append_assoc,
      List.singleton_append]
    congr 1
    congr 1
    funext i
    congr 1
    omega

/-! ### C1 -/

/-- C1 counterexample: in the folder index `cycFolders` the identifier "a"
starts a cycle of length k = 2 (a → b → a, with distinct nonempty identifiers,
both named in the index), yet path resolution — in both buildPath variants —
returns 2 resolved segments, not at most k - 1 = 1 as the claim states. -/
theorem C1_counterexample :
    (folderName cycFolders "a" = some "A" ∧ folderName cycFolders "b" = some "B"
      ∧ stepL cycFolders "a" = some "b" ∧ stepL cycFolders "b" = some "a"
      ∧ stepF cycFolders "a" = some "b" ∧ stepF cycFolders "b" = some "a"
      ∧ ("a" : String) ≠ "b" ∧ ("a" : String) ≠ "" ∧ ("b" : String) ≠ "")
    ∧ ¬ ((resolvedSegmentsL cycFolders ["a"]).length ≤ 2 - 1)
    ∧ ¬ ((resolvedSegmentsF cycFolders ["a"]).length ≤ 2 - 1) := by
  decide

/-- C1 (amended): for every parent-identifier list whose first identifier
starts a cycle of length k with k ≤ 10 in the folder index, path resolution
(the buildPath helper of ListFiles and the one of ListFilesInFolder)
terminates and the returned path contains at most k resolved segments. -/
theorem C1_cycle_resolution_bounded
    (folders : List DriveFile) (k : Nat) (hk : 0 < k) (hk10 : k ≤ 10)
    (c : Fin k → String) (pids : List String)
    (hinj : Function.Injective c)
    (hne : ∀ i, c i ≠ "")
    (hstepLc : ∀ i : Fin k,
      stepL folders (c i) = some (c ⟨(i.val + 1) % k, Nat.mod_lt _ hk⟩))
    (hstepFc : ∀ i : Fin k,
      stepF folders (c i) = some (c ⟨(i.val + 1) % k, Nat.mod_lt _ hk⟩))
    (hhead : pids.head? = some (c ⟨0, hk⟩)) :
    (resolvedSegmentsL folders pids).length ≤ k
    ∧ (resolvedSegmentsF folders pids).length ≤ k := by
  have hclosed : ∀ (stepOf : String → Option String),
      (∀ i : Fin k, stepOf (c i) = some (c ⟨(i.val + 1) % k, Nat.mod_lt _ hk⟩)) →
      ∀ x ∈ Finset.univ.image c, ∀ p, stepOf x = some p → p ∈ Finset.univ.image c := by
    intro stepOf hstep x hx p hp
    obtain ⟨i, -, rfl⟩ := Finset.mem_image.mp hx
    rw [hstep i] at hp
    have hp' := Option.some.inj hp
    rw [← hp']
    exact Finset.mem_image.mpr ⟨_, Finset.mem_univ _, rfl⟩
  have hcard : (Finset.univ.image c).card = k := by
    rw [Finset.card_image_of_injective _ hinj, Finset.card_univ, Fintype.card_fin]
  have hmem0 : c ⟨0, hk⟩ ∈ Finset.univ.image c :=
    Finset.mem_image.mpr ⟨_, Finset.mem_univ _, rfl⟩
  obtain ⟨pid, rest, rfl⟩ : ∃ p t, pids = p :: t := by
    cases pids with
    | nil => simp at hhead
    | cons p t => exact ⟨p, t, rfl⟩
  have hpid : pid = c ⟨0, hk⟩ := by simpa using hhead
  subst hpid
  constructor
  · have h := walk_length_le_card (folderName folders) (stepL folders)
      (Finset.univ.image c) (hclosed _ hstepLc) 10 (c ⟨0, hk⟩) [] [] hmem0
    simpa [resolvedSegmentsL, buildPathAuxL, hcard] using h
  · have h := walk_length_le_card (folderName folders) (stepF folders)
      (Finset.univ.image c) (hclosed _ hstepFc) 10 (c ⟨0, hk⟩) [] [] hmem0
    have he := buildPathAuxF_eq_walk folders 10 (c ⟨0, hk⟩) [] []
    simp only [resolvedSegmentsF]
    rw [he]
    simpa [hcard] using h

/-- C1 witness: the amended bound evaluated on the concrete two-cycle. -/
theorem C1_cycle_resolution_bounded_witness :
    (resolvedSegmentsL cycFolders ["a"]).length ≤ 2
    ∧ (resolvedSegmentsF cycFolders ["a"]).length ≤ 2 :=
  C1_cycle_resolution_bounded cycFolders 2 (by decide) (by decide) cycNode ["a"]
    (by decide) (by decide) (by decide) (by decide) (by decide)

/-! ### C3 -/

/-- C3: for every parent-identifier list whose first identifier starts an
acyclic parent chain more than 10 containers deep, all of whose traversed
identifiers are present in the folder index, path resolution (both buildPath
variants) returns exactly the first 10 resolved segments, in
root-to-nearest order — the name of the 10th ancestor first. -/
theorem C3_deep_chain_first_ten
    (folders : List DriveFile) (c nm : Nat → String) (pids : List String)
    (hname : ∀ i, i < 10 → folderName folders (c i) = some (nm i))
    (hstepLc : ∀ i, i < 10 → stepL folders (c i) = some (c (i + 1)))
    (hstepFc : ∀ i, i < 10 → stepF folders (c i) = some (c (i + 1)))
    (hinj : ∀ i₁, i₁ < 10 → ∀ i₂, i₂ < 10 → c i₁ = c i₂ → i₁ = i₂)
    (hne : ∀ i, i < 10 → c i ≠ "")
    (hhead : pids.head? = some (c 0)) :
    resolvedSegmentsL folders pids = (List.range 10).reverse.map nm
    ∧ resolvedSegmentsF folders pids = (List.range 10).reverse.map nm
    ∧ buildPathL folders pids
        = "My Drive/" ++ String.intercalate "/" ((List.range 10).reverse.map nm)
    ∧ buildPathF folders pids
        = "My Drive/" ++ String.intercalate "/" ((List.range 10).reverse.map nm) := by
  obtain ⟨pid, rest, rfl⟩ : ∃ p t, pids = p :: t := by
    cases pids with
    | nil => simp at hhead
    | cons p t => exact ⟨p, t, rfl⟩
  have hpid : pid = c 0 := by simpa using hhead
  subst hpid
  have hwalk : ∀ (stepOf : String → Option String),
      (∀ i, i < 10 → stepOf (c i) = some (c (i + 1))) →
      walk (folderName folders) stepOf 10 (c 0) [] []
        = (List.range 10).reverse.map nm := by
    intro stepOf hstep
    have h := walk_chain (folderName folders) stepOf c nm 10 0 [] []
      (by intro i hi; simpa using hname i hi)
      (by intro i hi; simpa using hstep i hi)
      (by intro i hi; simp)
      (by intro i₁ i₂ h₁ h₂ hcc; exact hinj i₁ h₁ i₂ h₂ (by simpa using hcc))
      (by intro i hi; simpa using hne i hi)
    simpa using h
  have hL : buildPathAuxL folders 10 (c 0) [] [] = (List.range 10).reverse.map nm :=
    hwalk (stepL folders) hstepLc
  have hF : buildPathAuxF folders 10 (c 0) [] [] = (List.range 10).reverse.map nm := by
    rw [buildPathAuxF_eq_walk]
    exact hwalk (stepF folders) hstepFc
  have hnil : ((List.range 10).reverse.map nm) ≠ [] := by simp
  refine ⟨by simpa [resolvedSegmentsL] using hL, by simpa [resolvedSegmentsF] using hF, ?_, ?_⟩
  · simp only [buildPathL]
    rw [hL, if_neg hnil]
  · simp only [buildPathF]
    rw [hF, if_neg hnil]

/-- C3 witness: the deep-chain behaviour evaluated on the concrete 10-link
chain d0 → d1 → ... → d10. -/
theorem C3_deep_chain_first_ten_witness :
    resolvedSegmentsL deepFolders [chainID 0] = (List.range 10).reverse.map chainNm
    ∧ resolvedSegmentsF deepFolders [chainID 0] = (List.range 10).reverse.map chainNm
    ∧ buildPathL deepFolders [chainID 0]
        = "My Drive/" ++ String.intercalate "/" ((List.range 10).reverse.map chainNm)
    ∧ buildPathF deepFolders [chainID 0]
        = "My Drive/" ++ String.intercalate "/" ((List.range 10).reverse.map chainNm) :=
  C3_deep_chain_first_ten deepFolders chainID chainNm [chainID 0]
    (by decide) (by decide) (by decide) (by decide) (by decide) rfl

/-! ### C2 -/

/-- C2: the folder map does NOT cover every container visible to the
credential.  In a corpus of 1001 containers with pairwise distinct
identifiers, the 1001st container exists in the corpus, yet the folder map
built from the single PageSize(1000) listing request — no continuation cursor
is ever followed for the folders query — has no entry for its identifier. -/
theorem C2_folder_map_misses_container :
    (((manyFolders 1001).map (fun f => f.id)).Nodup
      ∧ idOfIndex 1000 ∈ (manyFolders 1001).map (fun f => f.id))
    ∧ folderName (fetchFolders (manyFolders 1001)) (idOfIndex 1000) = none := by
  have hinj : Function.Injective idOfIndex := by
    intro i j h
    have h2 : i + 1 = j + 1 := by
      simpa [idOfIndex] using congrArg (fun s => s.data.length) h
    omega
  have hmap : ∀ n, (manyFolders n).map (fun f => f.id) = (List.range n).map idOfIndex := by
    intro n
    simp [manyFolders, List.map_map, Function.comp]
  refine ⟨⟨?_, ?_⟩, ?_⟩
  · rw [hmap]
    exact (List.nodup_range 1001).map hinj
  · rw [hmap]
    exact List.mem_map.mpr ⟨1000, by simp, rfl⟩
  · have htake : fetchFolders (manyFolders 1001) = manyFolders 1000 := by
      simp only [fetchFolders, manyFolders]
      rw [← List.map_take, List.take_range]
      norm_num
    rw [htake]
    have hfilter : (manyFolders 1000).filter (fun f => f.id == idOfIndex 1000) = [] := by
      rw [List.filter_eq_nil_iff]
      intro f hf
      simp only [manyFolders, List.mem_map, List.mem_range] at hf
      obtain ⟨i, hi, rfl⟩ := hf
      simp only [beq_iff_eq]
      intro heq
      have := hinj heq
      omega
    rw [folderName, hfilter]
    rfl

/-! ### C4 -/

/-- C4: with backend containers A, B (no parents) and files F1 (parent A,
size 10), F2 (no parent, size 0), F3 (parent A, container mime), ListFiles
produces exactly one record — F1, with folder path "My Drive/A" — and in
general every record in the output of ListFiles has nonzero size and a
non-container mime type (containers and zero-length objects are excluded). -/
theorem C4_enumeration_filter :
    (ListFilesModel [folderA, folderB] [[fileF1, fileF2, fileF3]] = [recordF1]
      ∧ recordF1.folderPath = "My Drive/A")
    ∧ ∀ (allFolders : List DriveFile) (pages : List (List DriveFile)) (r : FileInfo),
        r ∈ ListFilesModel allFolders pages →
        r.size ≠ 0 ∧ r.mimeType ≠ "application/vnd.google-apps.folder" := by
  refine ⟨⟨by decide, rfl⟩, ?_⟩
  intro allFolders pages r hr
  simp only [ListFilesModel, List.mem_flatten, List.mem_map] at hr
  obtain ⟨sub, ⟨page, hpage, rfl⟩, hrsub⟩ := hr
  rw [List.mem_filterMap] at hrsub
  obtain ⟨item, hitem, hsome⟩ := hrsub
  by_cases hc : item.size = 0 ∨ item.mimeType = "application/vnd.google-apps.folder"
  · rw [if_pos hc] at hsome
    exact absurd hsome (by simp)
  · rw [if_neg hc] at hsome
    push_neg at hc
    have hr' := Option.some.inj hsome
    rw [← hr']
    exact ⟨hc.1, hc.2⟩

/-- C4 witness: the general exclusion applied to the concrete scenario. -/
theorem C4_enumeration_filter_witness :
    recordF1.size ≠ 0 ∧ recordF1.mimeType ≠ "application/vnd.google-apps.folder" :=
  C4_enumeration_filter.2 [folderA, folderB] [[fileF1, fileF2, fileF3]] recordF1
    (by decide)

/-! ### C5 -/

/-- C5: for every byte range with a negative start, a negative end, or start
greater than end, PartialDownloadFile and PartialDownloadRevision return a
validation error reporting 0 bytes written, and the result is independent of
the backend — no remote request is issued. -/
theorem C5_range_validation
    (net net' : DriveNet) (fileID revisionID : String) (opts : PartialDownloadOptions)
    (h : opts.StartByte < 0 ∨ opts.EndByte < 0 ∨ opts.StartByte > opts.EndByte) :
    ((PartialDownloadFile net fileID opts).1 = 0
      ∧ (PartialDownloadFile net fileID opts).2.isSome
      ∧ PartialDownloadFile net fileID opts = PartialDownloadFile net' fileID opts)
    ∧ ((PartialDownloadRevision net fileID revisionID opts).1 = 0
      ∧ (PartialDownloadRevision net fileID revisionID opts).2.isSome
      ∧ PartialDownloadRevision net fileID revisionID opts
          = PartialDownloadRevision net' fileID revisionID opts) := by
  constructor
  · by_cases h1 : fileID = ""
    · simp [PartialDownloadFile, h1]
    · rcases h with h | h | h
      · simp [PartialDownloadFile, h1, h]
      · simp [PartialDownloadFile, h1, h]
      · by_cases hneg : opts.StartByte < 0 ∨ opts.EndByte < 0
        · simp [PartialDownloadFile, h1, hneg]
        · simp [PartialDownloadFile, h1, hneg, h]
  · by_cases h1 : fileID = ""
    · simp [PartialDownloadRevision, h1]
    · by_cases h2 : revisionID = ""
      · simp [PartialDownloadRevision, h1, h2]
      · rcases h with h | h | h
        · simp [PartialDownloadRevision, h1, h2, h]
        · simp [PartialDownloadRevision, h1, h2, h]
        · by_cases hneg : opts.StartByte < 0 ∨ opts.EndByte < 0
          · simp [PartialDownloadRevision, h1, h2, hneg]
          · simp [PartialDownloadRevision, h1, h2, hneg, h]

/-- C5 witness: start=100, end=50 rejected with 0 bytes on both operations. -/
theorem C5_range_validation_witness :
    ((100 : Int) > 50)
    ∧ (PartialDownloadFile (testNet resp200) "fid" ⟨100, 50⟩).1 = 0
    ∧ (PartialDownloadFile (testNet resp200) "fid" ⟨100, 50⟩).2.isSome
    ∧ (PartialDownloadRevision (testNet resp200) "fid" "rid" ⟨100, 50⟩).1 = 0
    ∧ (PartialDownloadRevision (testNet resp200) "fid" "rid" ⟨100, 50⟩).2.isSome := by
  have h := C5_range_validation (testNet resp200) downNet "fid" "rid" ⟨100, 50⟩
    (Or.inr (Or.inr (by decide)))
  exact ⟨by decide, h.1.1, h.1.2.1, h.2.1, h.2.2.1⟩

/-! ### C6 -/

/-- C6: with a valid request and a clean body copy, partial (range) transfer
succeeds exactly when the response status is 200 or 206, while full download
(StreamFile) succeeds exactly when the status is 200 — in particular a 206
response fails StreamFile. -/
theorem C6_status_codes
    (net : DriveNet) (fileID : String) (opts : PartialDownloadOptions)
    (resp : HttpResponse) (n : Int)
    (hfid : fileID ≠ "")
    (hneg : ¬(opts.StartByte < 0 ∨ opts.EndByte < 0))
    (hord : ¬opts.StartByte > opts.EndByte)
    (hrange : net.revisionsGetRange fileID fileID (rangeHeader opts) = Except.ok resp)
    (hget : net.filesGet fileID = Except.ok resp)
    (hcopy : resp.copyResult = (n, none)) :
    ((PartialDownloadFile net fileID opts).2 = none
        ↔ (resp.statusCode = 200 ∨ resp.statusCode = 206))
    ∧ ((StreamFile net fileID).2 = none ↔ resp.statusCode = 200) := by
  constructor
  · simp only [PartialDownloadFile, if_neg hfid, if_neg hneg, if_neg hord, hrange]
    by_cases h206 : resp.statusCode = 206 <;> by_cases h200 : resp.statusCode = 200 <;>
      simp_all
  · simp only [StreamFile, if_neg hfid, hget]
    by_cases h200 : resp.statusCode = 200 <;> simp_all

/-- C6 witness: against a 206 response, the range download succeeds and the
full download fails. -/
theorem C6_status_codes_witness :
    ((PartialDownloadFile (testNet resp206) "fid" ⟨0, 9⟩).2 = none
        ↔ (resp206.statusCode = 200 ∨ resp206.statusCode = 206))
    ∧ ((StreamFile (testNet resp206) "fid").2 = none ↔ resp206.statusCode = 200) :=
  C6_status_codes (testNet resp206) "fid" ⟨0, 9⟩ resp206 4
    (by decide) (by decide) (by decide) rfl rfl rfl

/-! ### C7 -/

/-- C7: for every transfer operation — StreamFile, PartialDownloadFile,
ExportWorkspaceDocument, DownloadRevision, PartialDownloadRevision — if the
response is accepted but the body copy to the sink fails partway, the
operation returns the partial byte count already copied together with the
wrapped copy error, not a zero count. -/
theorem C7_partial_copy_count
    (net : DriveNet) (fileID revisionID exFormat : String)
    (opts : PartialDownloadOptions) (resp : HttpResponse) (n : Int) (e : String)
    (hcopy : resp.copyResult = (n, some e)) :
    (fileID ≠ "" → net.filesGet fileID = Except.ok resp → resp.statusCode = 200 →
      StreamFile net fileID = (n, some ("unable to stream file content: " ++ e)))
    ∧ (fileID ≠ "" → ¬(opts.StartByte < 0 ∨ opts.EndByte < 0) →
        ¬opts.StartByte > opts.EndByte →
        net.revisionsGetRange fileID fileID (rangeHeader opts) = Except.ok resp →
        (resp.statusCode = 206 ∨ resp.statusCode = 200) →
        PartialDownloadFile net fileID opts
          = (n, some ("unable to write revision content: " ++ e)))
    ∧ (fileID ≠ "" → exFormat ≠ "" → net.filesExport fileID exFormat = Except.ok resp →
        resp.statusCode = 200 →
        ExportWorkspaceDocument net fileID exFormat
          = (n, some ("unable to write exported content: " ++ e)))
    ∧ (fileID ≠ "" → revisionID ≠ "" →
        net.revisionsGet fileID revisionID = Except.ok resp → resp.statusCode = 200 →
        DownloadRevision net fileID revisionID
          = (n, some ("unable to write revision content: " ++ e)))
    ∧ (fileID ≠ "" → revisionID ≠ "" → ¬(opts.StartByte < 0 ∨ opts.EndByte < 0) →
        ¬opts.StartByte > opts.EndByte →
        net.revisionsGetRange fileID revisionID (rangeHeader opts) = Except.ok resp →
        (resp.statusCode = 206 ∨ resp.statusCode = 200) →
        PartialDownloadRevision net fileID revisionID opts
          = (n, some ("unable to write revision content: " ++ e))) := by
  refine ⟨?_, ?_, ?_, ?_, ?_⟩
  · intro h1 h2 h3
    simp [StreamFile, if_neg h1, h2, h3, hcopy]
  · intro h1 h2 h3 h4 h5
    have hst : ¬(resp.statusCode ≠ 206 ∧ resp.statusCode ≠ 200) := by tauto
    simp [PartialDownloadFile, if_neg h1, if_neg h2, if_neg h3, h4, if_neg hst, hcopy]
  · intro h1 h2 h3 h4
    simp [ExportWorkspaceDocument, if_neg h1, if_neg h2, h3, h4, hcopy]
  · intro h1 h2 h3 h4
    simp [DownloadRevision, if_neg h1, if_neg h2, h3, h4, hcopy]
  · intro h1 h2 h3 h4 h5 h6
    have hst : ¬(resp.statusCode ≠ 206 ∧ resp.statusCode ≠ 200) := by tauto
    simp [PartialDownloadRevision, if_neg h1, if_neg h2, if_neg h3, if_neg h4, h5,
      if_neg hst, hcopy]

/-- C7 witness: a 200 response whose copy fails after 3 bytes yields (3, error)
on all five operations. -/
theorem C7_partial_copy_count_witness :
    StreamFile (testNet respCopyFail) "fid"
      = (3, some ("unable to stream file content: " ++ "copy interrupted"))
    ∧ PartialDownloadFile (testNet respCopyFail) "fid" ⟨0, 9⟩
      = (3, some ("unable to write revision content: " ++ "copy interrupted"))
    ∧ ExportWorkspaceDocument (testNet respCopyFail) "fid" "application/pdf"
      = (3, some ("unable to write exported content: " ++ "copy interrupted"))
    ∧ DownloadRevision (testNet respCopyFail) "fid" "rid"
      = (3, some ("unable to write revision content: " ++ "copy interrupted"))
    ∧ PartialDownloadRevision (testNet respCopyFail) "fid" "rid" ⟨0, 9⟩
      = (3, some ("unable to write revision content: " ++ "copy interrupted")) := by
  have h := C7_partial_copy_count (testNet respCopyFail) "fid" "rid" "application/pdf"
    ⟨0, 9⟩ respCopyFail 3 "copy interrupted" rfl
  exact ⟨h.1 (by decide) rfl rfl,
    h.2.1 (by decide) (by decide) (by decide) rfl (Or.inr rfl),
    h.2.2.1 (by decide) (by decide) rfl rfl,
    h.2.2.2.1 (by decide) (by decide) rfl rfl,
    h.2.2.2.2 (by decide) (by decide) (by decide) (by decide) rfl (Or.inr rfl)⟩

/-! ### C8 -/

/-- C8: UploadFileFromReader with an empty file name fails validation with a
backend-independent result — no remote request is issued; with a non-nil
reader, a nonempty name and an empty mime type it substitutes
application/octet-stream as the content type and proceeds with the upload. -/
theorem C8_upload_validation_and_default
    (net net' : DriveNet) (reader : Option Unit) (fileName mimeType pid : String) :
    ((UploadFileFromReader net reader "" mimeType pid).1 = ""
      ∧ (UploadFileFromReader net reader "" mimeType pid).2.isSome
      ∧ UploadFileFromReader net reader "" mimeType pid
          = UploadFileFromReader net' reader "" mimeType pid)
    ∧ (fileName ≠ "" →
        UploadFileFromReader net (some ()) fileName "" pid
          = UploadFileFromReader net (some ()) fileName "application/octet-stream" pid
        ∧ ∀ newID,
            net.filesCreate fileName "application/octet-stream"
              (if pid ≠ "" then [pid] else []) = Except.ok newID →
            UploadFileFromReader net (some ()) fileName "" pid = (newID, none)) := by
  constructor
  · cases reader with
    | none => simp [UploadFileFromReader]
    | some u => simp [UploadFileFromReader]
  · intro hname
    constructor
    · simp [UploadFileFromReader, hname]
    · intro newID hcreate
      have hcreate' : net.filesCreate fileName "application/octet-stream"
          (if pid = "" then [] else [pid]) = Except.ok newID := by
        by_cases hp : pid = ""
        · simpa [hp] using hcreate
        · simpa [hp] using hcreate
      simp [UploadFileFromReader, hname, hcreate']

/-- C8 witness: empty name rejected; empty mime type behaves like an explicit
application/octet-stream and the upload succeeds. -/
theorem C8_upload_validation_and_default_witness :
    (UploadFileFromReader (testNet resp200) (some ()) "" "" "").2.isSome
    ∧ UploadFileFromReader (testNet resp200) (some ()) "doc.pdf" "" ""
        = UploadFileFromReader (testNet resp200) (some ()) "doc.pdf"
            "application/octet-stream" ""
    ∧ UploadFileFromReader (testNet resp200) (some ()) "doc.pdf" "" "" = ("newid", none) := by
  have h := C8_upload_validation_and_default (testNet resp200) downNet (some ())
    "doc.pdf" "" ""
  exact ⟨h.1.2.1, (h.2 (by decide)).1, (h.2 (by decide)).2 "newid" rfl⟩

/-! ### C9 -/

/-- C9: the range download of a file is issued against the revisions endpoint
with the file's own id as the revision id: PartialDownloadFile coincides with
PartialDownloadRevision at revisionID = fileID for every backend, file id,
writer and byte range. -/
theorem C9_partial_file_eq_revision
    (net : DriveNet) (fileID : String) (opts : PartialDownloadOptions) :
    PartialDownloadFile net fileID opts
      = PartialDownloadRevision net fileID fileID opts := by
  unfold PartialDownloadFile PartialDownloadRevision
  by_cases h1 : fileID = ""
  · simp [h1]
  · simp [h1]

/-- C9 witness: the equivalence evaluated at a concrete backend and range. -/
theorem C9_partial_file_eq_revision_witness :
    PartialDownloadFile (testNet resp200) "fid" ⟨0, 9⟩
      = PartialDownloadRevision (testNet resp200) "fid" "fid" ⟨0, 9⟩ :=
  C9_partial_file_eq_revision (testNet resp200) "fid" ⟨0, 9⟩

/-! ### C10 -/

/-- C10: for successfully fetched metadata, IsWorkspaceDocument returns true
iff the mime type is longer than 28 characters, its first 28 characters are
"application/vnd.google-apps.", and it is not exactly the folder mime type;
in particular it returns false for folders. -/
theorem C10_workspace_mime_check
    (net : DriveNet) (fileID mt : String)
    (hfid : fileID ≠ "")
    (hmt : net.getMimeType fileID = Except.ok mt) :
    ((IsWorkspaceDocument net fileID).1 = true
      ↔ (28 < mt.length ∧ mt.take 28 = "application/vnd.google-apps."
          ∧ mt ≠ "application/vnd.google-apps.folder"))
    ∧ (mt = "application/vnd.google-apps.folder" →
        (IsWorkspaceDocument net fileID).1 = false) := by
  simp only [IsWorkspaceDocument, if_neg hfid, hmt]
  by_cases hf : mt = "application/vnd.google-apps.folder"
  · simp [hf]
  · simp [hf]

/-- C10 witness: evaluated on a document mime type. -/
theorem C10_workspace_mime_check_witness :
    ((IsWorkspaceDocument (testNet resp200) "fid").1 = true
      ↔ (28 < ("application/vnd.google-apps.document" : String).length
          ∧ ("application/vnd.google-apps.document" : String).take 28
              = "application/vnd.google-apps."
          ∧ ("application/vnd.google-apps.document" : String)
              ≠ "application/vnd.google-apps.folder"))
    ∧ (("application/vnd.google-apps.document" : String)
          = "application/vnd.google-apps.folder" →
        (IsWorkspaceDocument (testNet resp200) "fid").1 = false) :=
  C10_workspace_mime_check (testNet resp200) "fid"
    "application/vnd.google-apps.document" (by decide) rfl

end GDrive
